import Mathlib

/-!
Shallow embedding of the RecommendationGenerator component
(src/src/llm/components/recommendation.py.backup) of the transfer_center
repository, together with theorems settling the frozen claims about it.

Conventions:
* Python values are modelled by `PyVal`; dictionaries are association lists
  in insertion order (Python 3.7+ dictionaries preserve insertion order).
* Machine floats and ints are both modelled by `PyFloat`: a rational
  value, or nan, inf or -inf, with IEEE comparison semantics (every
  comparison with nan is false); numeric rendering helpers are
  approximate where the exact text is never observed.
* Fallible Python operations return `Except PyErr`; a `try/except` block of
  the source becomes a `match` on the embedded result, and an uncaught
  exception is a propagated `Except.error`.
* External collaborators that are not part of this source file (the OpenAI
  chat client, `json.loads`, `float` applied to strings, and
  `calculate_recommendation_confidence` from src.core.decision) are
  parameters collected in an `Env` record, so the theorems quantify over
  every behavior of these collaborators.
-/

namespace TC

/-- A Python float (ints take the same form with a denominator of 1):
either a real value, modelled by a rational, or one of the special values
nan, inf and -inf, which `float` produces on the strings "nan", "inf" and
"-inf" and which Python's `json.loads` also produces from the non-standard
NaN and Infinity tokens it accepts by default. -/
inductive PyFloat where
  | val (q : ℚ)
  | nan
  | inf
  | ninf
deriving DecidableEq

/-- IEEE-style `x < y` on Python floats: every comparison with nan is
false; -inf is below and inf above every real value. -/
def PyFloat.blt : PyFloat → PyFloat → Bool
  | .nan, _ => false
  | _, .nan => false
  | .ninf, .ninf => false
  | .ninf, _ => true
  | _, .ninf => false
  | .inf, _ => false
  | .val _, .inf => true
  | .val a, .val b => decide (a < b)

/-- Membership of a Python float in the closed interval from 0 to 100
(nan and the infinities are not in it). -/
def pyFloatInRange : PyFloat → Bool
  | .val q => decide (0 ≤ q) && decide (q ≤ 100)
  | _ => false

/-- A Python runtime value, as far as the recommendation component can
observe one: `None`, booleans, numbers, strings, lists and dicts. -/
inductive PyVal where
  | none
  | bool (b : Bool)
  | num (x : PyFloat)
  | str (s : String)
  | list (xs : List PyVal)
  | dict (entries : List (String × PyVal))

/-- A Python dict with string keys, in insertion order. -/
abbrev PyDict := List (String × PyVal)

/-- A Python exception, reduced to its message. -/
abbrev PyErr := String

/-- Lookup of a key in a dict (`d[k]` when the key is present). -/
def dget : PyDict → String → Option PyVal
  | [], _ => none
  | e :: es, k => if e.1 = k then some e.2 else dget es k

/-- `d.get(k, dflt)` on a dict. -/
def dgetD (d : PyDict) (k : String) (dflt : PyVal) : PyVal :=
  (dget d k).getD dflt

/-- `k in d` on a dict. -/
def dmem (d : PyDict) (k : String) : Bool :=
  (dget d k).isSome

/-- `d[k] = v`: replace the value in place if the key exists, else append. -/
def dset : PyDict → String → PyVal → PyDict
  | [], k, v => [(k, v)]
  | e :: es, k, v => if e.1 = k then (k, v) :: es else e :: dset es k v

/-- Python truthiness of a value. -/
def truthy : PyVal → Bool
  | .none => false
  | .bool b => b
  | .num (.val q) => if q = 0 then false else true
  | .num _ => true
  | .str s => !s.isEmpty
  | .list xs => !xs.isEmpty
  | .dict d => !d.isEmpty

/-- `isinstance(v, dict)`. -/
def PyVal.isDict : PyVal → Bool
  | .dict _ => true
  | _ => false

/-- Whether `v[:50]` is defined (Python slicing works on str and list). -/
def sliceOk : PyVal → Bool
  | .str _ => true
  | .list _ => true
  | _ => false

/-- ASCII lowering of a string, as Python `str.lower` does on this data. -/
def pyLowerStr (s : String) : String :=
  String.mk (s.data.map Char.toLower)

/-- ASCII raising of a string, as Python `str.upper` does on this data. -/
def pyUpperStr (s : String) : String :=
  String.mk (s.data.map Char.toUpper)

/-- Whether the first list is a prefix of the second. -/
def isPrefixChars : List Char → List Char → Bool
  | [], _ => true
  | _ :: _, [] => false
  | a :: as, b :: bs => a == b && isPrefixChars as bs

/-- Split around the first occurrence of `sub`: the characters before it
and the characters after it, or `Option.none` when `sub` does not occur
(left-to-right, non-overlapping, as Python `str.split` finds it). -/
def findSplit : List Char → List Char → Option (List Char × List Char)
  | [], sub => if sub.isEmpty then some ([], []) else none
  | c :: cs, sub =>
      if isPrefixChars sub (c :: cs) then some ([], (c :: cs).drop sub.length)
      else
        match findSplit cs sub with
        | some (pre, post) => some (c :: pre, post)
        | none => none

/-- `sub in s` for strings: substring containment. -/
def strContains (s sub : String) : Bool :=
  (findSplit s.data sub.data).isSome

/-- Everything after the first occurrence of `sep` in `s`
(`s.split(sep, 1)[1]` when `sep` occurs). -/
def afterFirst (s sep : String) : String :=
  match findSplit s.data sep.data with
  | some (_, post) => String.mk post
  | none => ""

/-- Everything before the first occurrence of `sep` in `s`
(`s.split(sep, 1)[0]`). -/
def beforeFirst (s sep : String) : String :=
  match findSplit s.data sep.data with
  | some (pre, _) => String.mk pre
  | none => s

/-- The whitespace test of Python `str.strip`. -/
def isSpaceChar (c : Char) : Bool :=
  c == ' ' || c == '\t' || c == '\n' || c == '\r' || c == '\x0b' || c == '\x0c'

/-- Python `s.strip()`. -/
def pyStrip (s : String) : String :=
  String.mk (((s.data.dropWhile isSpaceChar).reverse.dropWhile isSpaceChar).reverse)

/-- Rendering of a rational as Python renders the number it models.
Approximate: no claim observes the rendering of a non-integral number. -/
def ratStr (q : ℚ) : String :=
  if q.den = 1 then toString q.num
  else toString q.num ++ "/" ++ toString q.den

/-- Rendering of a Python float. -/
def floatStr : PyFloat → String
  | .val q => ratStr q
  | .nan => "nan"
  | .inf => "inf"
  | .ninf => "-inf"

mutual

/-- Python `str(v)`, recursively rendering containers with `repr`. -/
def pyStr : PyVal → String
  | .none => "None"
  | .bool true => "True"
  | .bool false => "False"
  | .num x => floatStr x
  | .str s => s
  | .list xs => "[" ++ String.intercalate ", " (pyReprList xs) ++ "]"
  | .dict d => "\x7b" ++ String.intercalate ", " (pyReprEntries d) ++ "\x7d"

/-- Python `repr(v)`: like `str` but strings are quoted. -/
def pyRepr : PyVal → String
  | .none => "None"
  | .bool true => "True"
  | .bool false => "False"
  | .num x => floatStr x
  | .str s => "\x27" ++ s ++ "\x27"
  | .list xs => "[" ++ String.intercalate ", " (pyReprList xs) ++ "]"
  | .dict d => "\x7b" ++ String.intercalate ", " (pyReprEntries d) ++ "\x7d"

def pyReprList : List PyVal → List String
  | [] => []
  | v :: vs => pyRepr v :: pyReprList vs

def pyReprEntries : List (String × PyVal) → List String
  | [] => []
  | (k, v) :: es => ("\x27" ++ k ++ "\x27: " ++ pyRepr v) :: pyReprEntries es

end

/-- Python `f"{q:.1f}"` on a real float value: round `10 * q` to an
integer (computed on numerator and denominator directly; the tie-rounding
mode is never observed by a claim) and print with one decimal place. -/
def fmt1Rat (q : ℚ) : String :=
  let t : ℤ := Int.fdiv (2 * (q.num * 10) + (q.den : ℤ)) (2 * (q.den : ℤ))
  let sign := if t < 0 then "-" else ""
  let a := t.natAbs
  sign ++ toString (a / 10) ++ "." ++ toString (a % 10)

/-- Python `f"{x:.1f}"` on any float (the special values print as
themselves). -/
def fmt1 : PyFloat → String
  | .val q => fmt1Rat q
  | .nan => "nan"
  | .inf => "inf"
  | .ninf => "-inf"

/-- `v.get(k, dflt)`: dict lookup with default; AttributeError otherwise. -/
def pyGet : PyVal → String → PyVal → Except PyErr PyVal
  | .dict d, k, dflt => .ok (dgetD d k dflt)
  | _, _, _ => .error "AttributeError: no attribute get"

/-- `k in v` for a string key: key membership for dicts, substring test for
strings, element membership for lists; TypeError otherwise. -/
def pyContainsKey : PyVal → String → Except PyErr Bool
  | .dict d, k => .ok (dmem d k)
  | .str s, k => .ok (strContains s k)
  | .list xs, k =>
      .ok (xs.any fun v => match v with | .str t => t == k | _ => false)
  | _, _ => .error "TypeError: argument not iterable"

/-- `v[k]` for a string key `k`: defined only for dicts containing the key
(indexing a str or list with a str raises TypeError). -/
def pyIndex : PyVal → String → Except PyErr PyVal
  | .dict d, k =>
      match dget d k with
      | some v => .ok v
      | none => .error "KeyError"
  | _, _ => .error "TypeError: indices must be integers"

/-- `v.items()`: defined only for dicts. -/
def pyItems : PyVal → Except PyErr PyDict
  | .dict d => .ok d
  | _ => .error "AttributeError: no attribute items"

/-- `len(v)`: defined for str, list and dict. -/
def pyLen : PyVal → Except PyErr Nat
  | .str s => .ok s.length
  | .list xs => .ok xs.length
  | .dict d => .ok d.length
  | _ => .error "TypeError: object has no len"

/-- `v[k] = w`: item assignment, defined only for dicts. -/
def pySetItem : PyVal → String → PyVal → Except PyErr PyVal
  | .dict d, k, v => .ok (.dict (dset d k v))
  | _, _, _ => .error "TypeError: does not support item assignment"

/-- `v.lower()`: defined only for strings. -/
def pyLower : PyVal → Except PyErr String
  | .str s => .ok (pyLowerStr s)
  | _ => .error "AttributeError: no attribute lower"

/-- Exception-propagating sequencing: run `x`; on success continue with
`f`, on an exception propagate it (the semicolon between two fallible
Python statements inside one try block). -/
def eBind {α β : Type} (x : Except PyErr α) (f : α → Except PyErr β) :
    Except PyErr β :=
  match x with
  | .error e => .error e
  | .ok a => f a

/-- `sep.join(xs)`: every element must be a string. -/
def pyJoinWith (sep : String) (xs : List PyVal) : Except PyErr String :=
  match xs.mapM (fun v => match v with
      | PyVal.str s => Except.ok s
      | _ => (Except.error "TypeError: join expects str" : Except PyErr String)) with
  | .ok parts => .ok (String.intercalate sep parts)
  | .error e => .error e

/-- The external collaborators of the component, left abstract:
`jparse` is `json.loads` (`Option.none` models a JSONDecodeError),
`strFloat` is `float` applied to a string (`Option.none` models a
ValueError; the strings "nan", "inf" and "-inf" convert to the special
float values), `clientResp` is the chat-completions call taking the user
message and returning the response content (an `Except.error` models any
raised exception, including timeouts), and `calc` is
`calculate_recommendation_confidence` from src.core.decision, which the
source calls as a total function. -/
structure Env where
  jparse : String → Option PyVal
  strFloat : String → Option PyFloat
  clientResp : String → Except PyErr String
  confCalc : PyDict → ℚ

/-- Modelled from the spec: the `Recommendation` data model of src.core.models
is not under src/; section 3 of the spec defines it as chosen campus id,
level of care, confidence score, natural-language reason, notes and a
structured explainability payload. The constructor keyword arguments used by
the source file are the fields kept here; no field validation is modelled. -/
structure Recommendation where
  transfer_request_id : String
  recommended_campus_id : PyVal
  confidence_score : PyFloat
  reason : PyVal
  notes : List String
  explainability_details : PyDict

/-- The fenced-code-block test of the source (line 179):
three backticks followed by json occur in the content, and three backticks
occur again after them. -/
def fencedPresent (content : String) : Bool :=
  strContains content "```json" && strContains (afterFirst content "```json") "```"

/-- The fenced-code-block extraction of the source (line 181):
`content.split("```json", 1)[1].split("```", 1)[0].strip()`. -/
def extractFenced (content : String) : String :=
  pyStrip (beforeFirst (afterFirst content "```json") "```")

/-- The best-effort scan for the outermost matching bracket pair: the
substring from the first opening brace to the last closing brace. -/
def braceExtract (content : String) : Option String :=
  let cs := content.data
  match cs.findIdx? (fun c => c == '\x7b') with
  | some i =>
      match cs.reverse.findIdx? (fun c => c == '\x7d') with
      | some jr =>
          let j := cs.length - 1 - jr
          if i ≤ j then some (String.mk ((cs.drop i).take (j - i + 1))) else none
      | none => none
  | none => none

/-- Modelled from the spec: `robust_json_parser` of src.llm.utils is not
under src/. Section 4.1 of the spec specifies it as the layered recovery
strategy, attempted in order, stopping at the first success: (1) direct
structured parse of the full response; (2) extraction of a fenced code
block then structured parse; (3) best-effort scan for the outermost
matching bracket pair then parse; if all three fail it raises (modelled by
`Option.none`) rather than returning a fabricated value. -/
def robust_json_parse (env : Env) (content : String) : Option PyVal :=
  match env.jparse content with
  | some v => some v
  | none =>
      match (if fencedPresent content then env.jparse (extractFenced content)
             else none) with
      | some v => some v
      | none =>
          match braceExtract content with
          | some sub => env.jparse sub
          | none => none

/-- The manual extraction branch of `_try_llm_recommendation`
(lines 178-198): if a fenced block is present, parse its content and fall
back to a direct parse of the whole response; otherwise parse the whole
response directly; `Option.none` models the `return None` statements. -/
def manualExtract (env : Env) (content : String) : Option PyVal :=
  if fencedPresent content then
    match env.jparse (extractFenced content) with
    | some v => some v
    | none => env.jparse content
  else env.jparse content

/-- Whether the debug print at line 175,
`list(recommendation_json.keys()) if recommendation_json else 'None'`,
runs without raising: a falsy value takes the else branch and a dict has
keys; a truthy non-dict raises AttributeError. -/
def keysCallOk (v : PyVal) : Bool :=
  !truthy v || v.isDict

/-- The whole parse recovery of `_try_llm_recommendation` (lines 169-198):
first `robust_json_parser`; if it raises, or if the debug print on its
result raises, the manual extraction branch runs. -/
def parse_recovery (env : Env) (content : String) : Option PyVal :=
  match robust_json_parse env content with
  | some v => if keysCallOk v then some v else manualExtract env content
  | none => manualExtract env content

/-- The standardized template of `_standardize_llm_response` (line 261). -/
def stdTemplate : PyDict :=
  [("campus_id", .str "UNKNOWN"),
   ("reason", .str "No reason provided"),
   ("confidence_score", .num (.val 50)),
   ("care_level", .str "unknown"),
   ("notes", .list [])]

/-- The campus-id field variations of line 272. -/
def campusAliases : List String :=
  ["recommended_campus", "campus_id", "campus", "hospital", "facility"]

/-- The reason field variations of line 274. -/
def reasonAliases : List String :=
  ["clinical_reasoning", "reasoning", "reason", "justification", "rationale"]

/-- The confidence-score field variations of line 276. -/
def confAliases : List String :=
  ["confidence_score", "confidence", "score"]

/-- The care-level field variations of line 278. -/
def careAliases : List String :=
  ["care_level", "level_of_care", "recommended_care_level"]

/-- The field mappings of `_standardize_llm_response` (line 270), in the
iteration order of the source dict literal. -/
def fieldMappings : List (String × List String) :=
  [("campus_id", campusAliases),
   ("reason", reasonAliases),
   ("confidence_score", confAliases),
   ("care_level", careAliases)]

/-- The inner loop of the field-mapping extraction (lines 283-286): the
first source field that is present in the response with a truthy value
wins; `in` and indexing can raise on a non-dict response. -/
def firstTruthy (rj : PyVal) : List String → Except PyErr (Option PyVal)
  | [] => .ok none
  | sf :: rest =>
      match pyContainsKey rj sf with
      | .error e => .error e
      | .ok c =>
          if c then
            match pyIndex rj sf with
            | .error e => .error e
            | .ok v => if truthy v then .ok (some v) else firstTruthy rj rest
          else firstTruthy rj rest

/-- The outer loop of the field-mapping extraction (line 282). -/
def applyMappingsAux (rj : PyVal) :
    List (String × List String) → PyDict → Except PyErr PyDict
  | [], std => .ok std
  | (target, sources) :: rest, std =>
      match firstTruthy rj sources with
      | .error e => .error e
      | .ok (some v) => applyMappingsAux rj rest (dset std target v)
      | .ok none => applyMappingsAux rj rest std

def applyMappings (rj : PyVal) : Except PyErr PyDict :=
  applyMappingsAux rj fieldMappings stdTemplate

/-- `_standardize_llm_response` (lines 250-300): build the standardized
dict from the template and the field mappings, store the original
response, copy over every other key of the response, then run the debug
prints, whose `standardized['reason'][:50]` slice raises when the chosen
reason value is neither a str nor a list. -/
def standardize_llm_response (rj : PyVal) : Except PyErr PyDict :=
  match applyMappings rj with
  | .error e => .error e
  | .ok std1 =>
      let std2 := dset std1 "original_response" rj
      match pyItems rj with
      | .error e => .error e
      | .ok items =>
          let std3 := items.foldl
            (fun acc e => if dmem acc e.1 then acc else dset acc e.1 e.2) std2
          if sliceOk (dgetD std3 "reason" PyVal.none) then .ok std3
          else .error "TypeError: unsupported slice on reason"

/-- The confidence validation of `_convert_to_recommendation`
(lines 334-338): a value comparing below 0 or above 100 is replaced by
the default 70.0. Both comparisons are false on nan, which therefore
passes through unreplaced; the infinities fail one comparison each and
are replaced. -/
def clampConf (x : PyFloat) : PyFloat :=
  if PyFloat.blt x (.val 0) || PyFloat.blt (.val 100) x then .val 70 else x

/-- The care-level display-name mapping of lines 361-371. -/
def careLevelDisplay (cl : String) : String :=
  if cl = "general" then "General Floor"
  else if cl = "general_floor" then "General Floor"
  else if cl = "telemetry" then "Telemetry Unit"
  else if cl = "intermediate" then "Intermediate Care"
  else if cl = "intermediate_care" then "Intermediate Care"
  else if cl = "icu" then "ICU (Intensive Care)"
  else if cl = "intensive_care" then "ICU (Intensive Care)"
  else if cl = "picu" then "PICU (Pediatric Intensive Care)"
  else if cl = "nicu" then "NICU (Neonatal Intensive Care)"
  else pyUpperStr cl

/-- The error recommendation of the except branch of
`_convert_to_recommendation` (lines 441-450). -/
def errorRecommendation (msg : String) : Recommendation :=
  { transfer_request_id := "error"
    recommended_campus_id := .str "ERROR"
    confidence_score := .val 10
    reason := .str ("Error processing recommendation: " ++ msg)
    notes := ["LLM processing error"]
    explainability_details := [("error", .str msg)] }

/-- The recommendation built on the success path of
`_convert_to_recommendation` (lines 432-439): the transfer id is the
placeholder, the campus and reason come from the standardized dict, and
the explainability payload is the standardized dict itself. -/
def successRec (std : PyDict) (conf : PyFloat) (cl : String)
    (backupCampus : PyVal) (backupConf : PyFloat) : Recommendation :=
  { transfer_request_id := "llm_generated"
    recommended_campus_id := dgetD std "campus_id" (.str "No specific campus recommended")
    confidence_score := conf
    reason := dgetD std "reason" (.str "Recommendation generated without detailed reasoning.")
    notes := ["Care Level: " ++ careLevelDisplay cl,
      "\nBackup Recommendation: " ++ pyStr backupCampus
        ++ " (Confidence: " ++ fmt1 backupConf ++ "%)"]
    explainability_details := std }

/-- The key-factors loop of lines 408-411. -/
def keyFactors (rj : PyVal) :
    List String → List String → Except PyErr (List String)
  | [], acc => .ok acc
  | k :: rest, acc =>
      match pyContainsKey rj k with
      | .error e => .error e
      | .ok c =>
          if c then
            match pyIndex rj k with
            | .error e => .error e
            | .ok v => keyFactors rj rest (acc ++ [k ++ ": " ++ pyStr v])
          else keyFactors rj rest acc

/-- `float(v)` as the source applies it: numbers pass through, booleans
become 0 or 1, strings go through the abstract float parser, anything else
raises TypeError. -/
def pyFloat (env : Env) : PyVal → Except PyErr PyFloat
  | .num x => .ok x
  | .bool b => .ok (.val (if b then 1 else 0))
  | .str s =>
      match env.strFloat s with
      | some q => .ok q
      | none => .error "ValueError: could not convert string to float"
  | _ => .error "TypeError: float argument"

/-- The pediatric-scores entry of the local explainability dict
(lines 392-398), built when the response has a `score_utilization` key. -/
def pediatricScoresEntry (rj : PyVal) : Except PyErr PyDict :=
  match pyIndex rj "score_utilization" with
  | .error e => .error e
  | .ok su =>
      match pyGet su "pediatric_scores_available" (.num (.val 0)) with
      | .error e => .error e
      | .ok sa =>
          match pyGet su "referenced_in_reasoning" (.bool false) with
          | .error e => .error e
          | .ok rr =>
              match pyGet su "reference_count" (.num (.val 0)) with
              | .error e => .error e
              | .ok rc => .ok (dset ([] : PyDict) "pediatric_scores"
                  (.dict [("scores_available", sa),
                          ("referenced_in_reasoning", rr),
                          ("reference_count", rc)]))

/-- The construction of the local `explainability_details` dict of
lines 388-428. The source builds it and then discards it: line 438 passes
`standardized` to the Recommendation instead. It is embedded because its
construction can raise (the `.get` calls on a non-dict
`score_utilization` value), which routes to the except branch. -/
def buildLocalExplainability (rj : PyVal) (display : String) :
    Except PyErr PyDict :=
  match pyContainsKey rj "score_utilization" with
  | .error e => .error e
  | .ok c =>
      match (if c then pediatricScoresEntry rj else .ok ([] : PyDict)) with
      | .error e => .error e
      | .ok ed1 =>
          let ed2 := dset ed1 "care_level" (.str display)
          match pyGet rj "urgency" (.str "medium") with
          | .error e => .error e
          | .ok urgency =>
              let ed3 := dset ed2 "urgency" urgency
              match keyFactors rj ["care_level", "confidence_score", "urgency"] [] with
              | .error e => .error e
              | .ok kf =>
                  let ed4 := if kf.isEmpty then ed3
                    else dset ed3 "key_factors_for_recommendation"
                      (.list (kf.map PyVal.str))
                  let ed5 := dset ed4 "proximity_analysis" (.dict [])
                  match pyContainsKey rj "campus_scores" with
                  | .error e => .error e
                  | .ok csc =>
                      .ok (if csc then
                            dset ed5 "proximity_analysis"
                              (.dict [("closer_options_bypassed", .bool false),
                                      ("closer_campus", .str ""),
                                      ("bypass_reason", .str "")])
                           else ed5)

/-- The body of the try block of `_convert_to_recommendation`
(lines 314-439), with each potentially raising Python operation made
explicit; an `Except.error` is handled by the except branch. -/
def convertBody (env : Env) (rj : PyVal) : Except PyErr Recommendation :=
  eBind (standardize_llm_response rj) fun standardized =>
  eBind (pyFloat env (dgetD standardized "backup_confidence_score" (.num (.val 0))))
    fun backup_confidence =>
  eBind (pyFloat env (dgetD standardized "confidence_score" (.num (.val 70))))
    fun confidence0 =>
  let confidence := clampConf confidence0
  let all_data := dgetD standardized "all_data"
    (dgetD standardized "original_response" (.dict []))
  let specialty_data := dgetD standardized "specialty_data" (.dict [])
  let exclusion_data := dgetD standardized "exclusion_data" (.dict [])
  eBind (pyGet all_data "demographics" (.dict [])) fun demographics =>
  eBind (pyGet all_data "chief_complaint" (.str "")) fun chief_complaint =>
  eBind (pyGet all_data "clinical_history" (.str "")) fun clinical_history =>
  eBind (pyGet all_data "vital_signs" (.dict [])) fun vital_signs =>
  let _recommendation_data : PyDict :=
    [("patient_demographics", demographics),
     ("chief_complaint", chief_complaint),
     ("clinical_history", clinical_history),
     ("extracted_vital_signs", vital_signs),
     ("care_level_assessment", specialty_data),
     ("exclusion_criteria", exclusion_data),
     ("recommended_campus", .dict
       [("campus_id", dgetD standardized "campus_id" (.str "No specific campus recommended")),
        ("confidence_score", .num confidence)])]
  eBind (pyLower (dgetD standardized "care_level" (.str "general"))) fun care_level =>
  let display := careLevelDisplay care_level
  eBind (buildLocalExplainability rj display) fun _explainability_details =>
  let backup_campus := dgetD standardized "backup_campus" (.str "No backup campus specified")
  if sliceOk (dgetD standardized "reason"
      (.str "Recommendation generated without detailed reasoning.")) then
    .ok (successRec standardized confidence care_level backup_campus backup_confidence)
  else .error "TypeError: unsupported slice on reason"

/-- `_convert_to_recommendation` (lines 302-450): the try body with the
catch-all except branch. -/
def convert_to_recommendation (env : Env) (rj : PyVal) : Recommendation :=
  match convertBody env rj with
  | .ok r => r
  | .error e => errorRecommendation e

/-- `_extract_essential_patient_info` (lines 532-579). -/
def extract_essential_patient_info (entities : PyDict) : Except PyErr String := do
  if entities.isEmpty then return "No patient information available."
  let demographics := dgetD entities "demographics" (.dict [])
  let age ← pyGet demographics "age" (.str "Unknown age")
  let gender ← pyGet demographics "gender" (.str "Unknown gender")
  let weight ← pyGet demographics "weight" (.str "Unknown weight")
  let vital_signs := dgetD entities "vital_signs" (.dict [])
  let vitals_text ← [("hr", "Heart Rate"), ("rr", "Respiratory Rate"),
      ("bp", "Blood Pressure"), ("temp", "Temperature"),
      ("o2", "O2 Saturation")].foldlM (fun acc vk => do
        let c ← pyContainsKey vital_signs vk.1
        if c then
          let v ← pyIndex vital_signs vk.1
          pure (acc ++ ["- " ++ vk.2 ++ ": " ++ pyStr v])
        else pure acc) ([] : List String)
  let clinical_info := dgetD entities "clinical_information"
    (dgetD entities "clinical_info" (.dict []))
  let chief_complaint ← pyGet clinical_info "chief_complaint" (.str "Unknown")
  let clinical_history ← pyGet clinical_info "clinical_history" (.str "No history provided")
  let out1 := "- Demographics: " ++ pyStr age ++ ", " ++ pyStr gender
    ++ ", " ++ pyStr weight ++ "\n"
  let out2 := if vitals_text.isEmpty then out1
    else out1 ++ "- Vital Signs:\n  " ++ String.intercalate "\n  " vitals_text ++ "\n"
  let out3 := out2 ++ "- Chief Complaint: " ++ pyStr chief_complaint ++ "\n"
    ++ "- Clinical History: " ++ pyStr clinical_history ++ "\n"
  let cdiag ← pyContainsKey clinical_info "diagnoses"
  if cdiag then
    let diagnoses ← pyIndex clinical_info "diagnoses"
    if truthy diagnoses then
      let dtext ← (match diagnoses with
        | .list xs => pyJoinWith ", " xs
        | v => pure (pyStr v))
      return out3 ++ "- Diagnoses: " ++ dtext ++ "\n"
    else return out3
  else return out3

/-- `_extract_essential_specialty_info` (lines 581-613); no operation on a
dict-typed argument can raise here, so the embedding is pure. -/
def extract_essential_specialty_info (assessment : PyDict) : String :=
  if assessment.isEmpty then "No specialty assessment available."
  else
    let o1 : List String :=
      if dmem assessment "recommended_care_level" then
        let base := ["- Recommended Care Level: "
          ++ pyStr (dgetD assessment "recommended_care_level" PyVal.none)]
        if dmem assessment "care_level_reasoning" then
          base ++ ["- Care Level Reasoning: "
            ++ pyStr (dgetD assessment "care_level_reasoning" PyVal.none)]
        else base
      else []
    let o2 : List String :=
      if dmem assessment "required_specialties" then
        let specialties := dgetD assessment "required_specialties" PyVal.none
        if truthy specialties then
          match specialties with
          | .list specs =>
              let specialty_names := specs.foldl (fun acc sp =>
                match sp with
                | .dict d =>
                    if dmem d "specialty" then
                      acc ++ [pyStr (dgetD d "specialty" PyVal.none)
                        ++ " (Confidence: " ++ pyStr (dgetD d "confidence" (.str "Unknown"))
                        ++ "%)"]
                    else acc
                | .str s => acc ++ [s]
                | _ => acc) ([] : List String)
              ["- Required Specialties: " ++ String.intercalate ", " specialty_names]
          | v => ["- Required Specialties: " ++ pyStr v]
        else []
      else []
    let outs := o1 ++ o2
    if outs.isEmpty then "No specific specialty needs identified."
    else String.intercalate "\n" outs

/-- `_extract_essential_exclusion_info` (lines 615-648). -/
def extract_essential_exclusion_info (exclusion : Option PyDict) :
    Except PyErr String := do
  match exclusion with
  | none => return "No exclusion criteria evaluated."
  | some e =>
    if e.isEmpty then return "No exclusion criteria evaluated."
    let o1 ← (if dmem e "excluded_campuses"
        && truthy (dgetD e "excluded_campuses" PyVal.none) then
        match dgetD e "excluded_campuses" PyVal.none with
        | .list xs => do
            let j ← pyJoinWith ", " xs
            pure ["- Excluded Campuses: " ++ j]
        | v => pure ["- Excluded Campuses: " ++ pyStr v]
      else pure ([] : List String))
    let o2 : List String :=
      if dmem e "exclusion_reasons"
          && truthy (dgetD e "exclusion_reasons" PyVal.none) then
        match dgetD e "exclusion_reasons" PyVal.none with
        | .dict reasons =>
            let reason_texts := reasons.map (fun kv => kv.1 ++ ": " ++ pyStr kv.2)
            ["- Exclusion Reasons:\n  - " ++ String.intercalate "\n  - " reason_texts]
        | v => ["- Exclusion Reasons: " ++ pyStr v]
      else []
    let o3 : List String :=
      if dmem e "recommended_campus"
          && truthy (dgetD e "recommended_campus" PyVal.none) then
        ["- Recommended Campus from Exclusion Analysis: "
          ++ pyStr (dgetD e "recommended_campus" PyVal.none)]
      else []
    let outs := o1 ++ o2 ++ o3
    if outs.isEmpty then return "No specific exclusion criteria identified."
    else return String.intercalate "\n" outs

/-- The per-item lines of `_format_scoring_data`:
`f"  - ⟨key⟩: ⟨value⟩\n"` for each entry of a dict, raising when the value
has no `.items()`. -/
def itemLines (pre : String) (v : PyVal) : Except PyErr String := do
  let its ← pyItems v
  pure (String.join (its.map (fun kv => pre ++ kv.1 ++ ": " ++ pyStr kv.2 ++ "\n")))

/-- `_format_scoring_data` (lines 650-772). -/
def format_scoring_data (scoring_results : PyVal) : Except PyErr String := do
  match scoring_results with
  | .dict sr =>
    if sr.isEmpty then return "No pediatric scoring data available."
    let t1 ← (if dmem sr "scores" && truthy (dgetD sr "scores" PyVal.none) then do
        let scores := dgetD sr "scores" PyVal.none
        let hpews ← pyContainsKey scores "pews"
        let a ← (if hpews then do
            let pews ← pyIndex scores "pews"
            let ts ← pyGet pews "total_score" (.str "N/A")
            let ip ← pyGet pews "interpretation" (.str "N/A")
            let s1 := "### PEWS (Pediatric Early Warning Score)\n"
              ++ "- Total Score: " ++ pyStr ts ++ "\n"
              ++ "- Interpretation: " ++ pyStr ip ++ "\n"
            let hsub ← pyContainsKey pews "subscores"
            let s2 ← (if hsub then do
                let subscores ← pyIndex pews "subscores"
                let ls ← itemLines "  - " subscores
                pure (s1 ++ "- Subscores:\n" ++ ls)
              else pure s1)
            let hact ← pyContainsKey pews "recommended_actions"
            let s3 ← (if hact then do
                let actions ← pyIndex pews "recommended_actions"
                match actions with
                | .list xs => pure (s2 ++ "- Recommended Actions:\n"
                    ++ String.join (xs.map (fun a => "  - " ++ pyStr a ++ "\n")))
                | v => pure (s2 ++ "- Recommended Actions:\n" ++ "  - " ++ pyStr v ++ "\n")
              else pure s2)
            pure (s3 ++ "\n")
          else pure "")
        let htrap ← pyContainsKey scores "trap"
        let b ← (if htrap then do
            let trap ← pyIndex scores "trap"
            let ts ← pyGet trap "total_score" (.str "N/A")
            let rl ← pyGet trap "risk_level" (.str "N/A")
            let s1 := "### TRAP (Transport Risk Assessment in Pediatrics)\n"
              ++ "- Total Score: " ++ pyStr ts ++ "\n"
              ++ "- Risk Level: " ++ pyStr rl ++ "\n"
            let hsub ← pyContainsKey trap "subscores"
            let s2 ← (if hsub then do
                let subscores ← pyIndex trap "subscores"
                let ls ← itemLines "  - " subscores
                pure (s1 ++ "- System Assessments:\n" ++ ls)
              else pure s1)
            let httr ← pyContainsKey trap "transport_team_recommendation"
            let s3 ← (if httr then do
                let v ← pyIndex trap "transport_team_recommendation"
                pure (s2 ++ "- Transport Team: " ++ pyStr v ++ "\n")
              else pure s2)
            pure (s3 ++ "\n")
          else pure "")
        let hprism ← pyContainsKey scores "prism_iii"
        let c ← (if hprism then do
            let prism ← pyIndex scores "prism_iii"
            let ts ← pyGet prism "total_score" (.str "N/A")
            let mr ← pyGet prism "mortality_risk" (.str "N/A")
            let s1 := "### PRISM III (Pediatric Risk of Mortality)\n"
              ++ "- Total Score: " ++ pyStr ts ++ "\n"
              ++ "- Mortality Risk: " ++ pyStr mr ++ "\n"
            let hvar ← pyContainsKey prism "variable_scores"
            let s2 ← (if hvar then do
                let varScores ← pyIndex prism "variable_scores"
                let ls ← itemLines "  - " varScores
                pure (s1 ++ "- Physiologic Variables:\n" ++ ls)
              else pure s1)
            pure (s2 ++ "\n")
          else pure "")
        let hcameo ← pyContainsKey scores "cameo_ii"
        let d ← (if hcameo then do
            let cameo ← pyIndex scores "cameo_ii"
            let ts ← pyGet cameo "total_score" (.str "N/A")
            let al ← pyGet cameo "acuity_level" (.str "N/A")
            let s1 := "### CAMEO II (Complexity Assessment and Monitoring)\n"
              ++ "- Total Score: " ++ pyStr ts ++ "\n"
              ++ "- Acuity Level: " ++ pyStr al ++ "\n"
            let hdom ← pyContainsKey cameo "domain_scores"
            let s2 ← (if hdom then do
                let domains ← pyIndex cameo "domain_scores"
                let ls ← itemLines "  - " domains
                pure (s1 ++ "- Domain Scores:\n" ++ ls)
              else pure s1)
            let hnr ← pyContainsKey cameo "recommended_nurse_ratio"
            let s3 ← (if hnr then do
                let v ← pyIndex cameo "recommended_nurse_ratio"
                pure (s2 ++ "- Recommended Nurse Ratio: " ++ pyStr v ++ "\n")
              else pure s2)
            pure (s3 ++ "\n")
          else pure "")
        pure (a ++ b ++ c ++ d)
      else pure "")
    let t2 ← (if dmem sr "recommended_care_levels" then do
        let care_levels := dgetD sr "recommended_care_levels" PyVal.none
        let ls ← itemLines "- " care_levels
        pure (t1 ++ "### Care Level Recommendations Based on Scores\n" ++ ls ++ "\n")
      else pure t1)
    let t3 ← (if dmem sr "justifications" then do
        let justifications := dgetD sr "justifications" PyVal.none
        let ls ← itemLines "- " justifications
        pure (t2 ++ "### Score-Based Justifications\n" ++ ls)
      else pure t2)
    return t3
  | _ => return "No pediatric scoring data available."

/-- The JSON-format instruction block appended to the prompt
(lines 105-136). -/
def json_instructions : String :=
  String.intercalate "\n"
    ["",
     "Use the above information to provide a hospital transfer recommendation in the following JSON format:",
     "```json",
     "\x7b",
     "  \"recommended_campus\": string,       // The recommended campus or hospital name",
     "  \"care_level\": string,               // Recommended care level (general_floor, intermediate_care, intensive_care, etc.)",
     "  \"confidence_score\": number,         // Confidence score (0-100) for this recommendation",
     "  \"clinical_reasoning\": string,       // Clinical justification for the recommendation",
     "  \"campus_scores\": \x7b                  // Detailed scoring for each considered campus",
     "    \"primary\": \x7b",
     "      \"location\": number,             // Score for location proximity (1-5)",
     "      \"specific_resources\": number    // Score for specific resources needed (1-5)",
     "    \x7d,",
     "    \"backup\": \x7b                       // Optional backup recommendation",
     "      \"location\": number,",
     "      \"specific_resources\": number",
     "    \x7d",
     "  \x7d,",
     "  \"bed_availability\": \x7b",
     "    \"confirmed\": boolean,             // Whether bed availability was confirmed",
     "    \"availability_notes\": string      // Notes on bed availability status",
     "  \x7d,",
     "  \"traffic_report\": \x7b",
     "    \"estimated_transport_time\": string,  // Estimated transport time to facility",
     "    \"traffic_conditions\": string,        // Current traffic conditions (normal, heavy, etc.)",
     "    \"route_notes\": string                // Any notes about the transport route",
     "  \x7d",
     "\x7d",
     "```",
     "",
     "Do not include any text before or after the JSON. Only return a valid JSON object.",
     ""]

/-- `_build_recommendation_prompt` (lines 452-530): returns the prompt
text, whether pediatric scoring data is present, and the number of
scores. -/
def build_recommendation_prompt (entities sa : PyDict) (xe : Option PyDict) :
    Except PyErr (String × Bool × Nat) := do
  let patient_info ← extract_essential_patient_info entities
  let specialty_info := extract_essential_specialty_info sa
  let exclusion_info ← extract_essential_exclusion_info xe
  let scoring ← (if dmem sa "scoring_results" then
      let scoring_results := dgetD sa "scoring_results" PyVal.none
      if truthy scoring_results && scoring_results.isDict then do
        let sc ← pyGet scoring_results "scores" (.dict [])
        let n ← pyLen sc
        let si ← format_scoring_data scoring_results
        pure (true, n, si)
      else pure (false, 0, "")
    else pure ((false : Bool), (0 : Nat), ""))
  let has_scores := scoring.1
  let score_count := scoring.2.1
  let scoring_info := scoring.2.2
  let prompt1 := "\n# Transfer Recommendation Request\n\n## Patient Information\n"
    ++ patient_info ++ "\n\n## Specialty Assessment\n" ++ specialty_info
    ++ "\n\n## Exclusion Criteria\n" ++ exclusion_info ++ "\n"
  let prompt2 := if has_scores then
      prompt1 ++ "\n## Pediatric Scoring Data\n" ++ scoring_info ++ "\n"
    else prompt1
  let prompt3 := prompt2 ++ "\n## Recommendation Task\n"
    ++ "Based on the above information, provide a hospital transfer recommendation. Consider:\n"
    ++ "1. The patient\x27s care needs and suggested care level\n"
    ++ "2. Any excluded campuses or specialties\n"
    ++ "3. Proximity to the patient\x27s location\n"
    ++ "4. Availability of required services\n"
    ++ "5. Current bed availability\n"
  let prompt4 := if has_scores then
      prompt3 ++ "\n6. Pediatric severity scores should heavily influence your recommendation, especially:\n"
        ++ "   - Use PEWS, TRAP scores to determine transport requirements\n"
        ++ "   - Use PRISM III scores to assess mortality risk\n"
        ++ "   - Use CAMEO II scores to determine nursing care needs\n"
        ++ "   - Explicitly reference the scores in your reasoning\n"
    else prompt3
  return (prompt4, has_scores, score_count)

/-- The score-reference terms of lines 207-208. -/
def score_terms : List String :=
  ["pews", "trap", "prism", "cameo", "queensland", "chews", "tps",
   "score", "scoring", "pediatric score", "severity score"]

/-- The fields scanned for score references (lines 211-214). -/
def fields_to_check : List String :=
  ["clinical_reasoning", "justification", "reasoning",
   "rationale", "notes", "considerations"]

/-- How many score terms occur in one field text (lines 222-224). -/
def countTermRefs (text : String) : Nat :=
  score_terms.foldl (fun n term =>
    if strContains (pyLowerStr text) (pyLowerStr term) then n + 1 else n) 0

/-- The score-reference scan of lines 216-224: walks the fields, joins
list-valued fields with spaces (which raises on non-str elements) and
counts term occurrences in str-valued fields. -/
def scoreReferences (rj : PyVal) : List String → Nat → Except PyErr Nat
  | [], n => .ok n
  | f :: rest, n =>
      match pyContainsKey rj f with
      | .error e => .error e
      | .ok c =>
          if c then
            match pyIndex rj f with
            | .error e => .error e
            | .ok v =>
                if truthy v then
                  match v with
                  | .list xs =>
                      match pyJoinWith " " xs with
                      | .error e => .error e
                      | .ok s => scoreReferences rj rest (n + countTermRefs s)
                  | .str s => scoreReferences rj rest (n + countTermRefs s)
                  | _ => scoreReferences rj rest n
                else scoreReferences rj rest n
          else scoreReferences rj rest n

/-- The score-utilization injection of lines 204-237: count the score
references and store the result under `score_utilization` in the parsed
response (item assignment raises on a non-dict response). -/
def score_scan (rj : PyVal) (score_count : Nat) : Except PyErr PyVal :=
  match scoreReferences rj fields_to_check 0 with
  | .error e => .error e
  | .ok refs =>
      pySetItem rj "score_utilization"
        (.dict [("pediatric_scores_available", .num (.val (score_count : ℚ))),
                ("referenced_in_reasoning", .bool (decide (refs > 0))),
                ("reference_count", .num (.val (refs : ℚ)))])

/-- The inner try block of `_try_llm_recommendation` (lines 170-244):
parse recovery, then the score scan when scoring data was available and
the parsed response is truthy, then conversion; any exception inside this
block is caught at line 242 and turned into `None`. -/
def innerParse (env : Env) (content : String) (has_scores : Bool)
    (score_count : Nat) : Except PyErr (Option Recommendation) :=
  match parse_recovery env content with
  | none => .ok none
  | some rj =>
      eBind (if has_scores && truthy rj then score_scan rj score_count
             else .ok rj) fun rj2 =>
      .ok (some (convert_to_recommendation env rj2))

/-- The body of the outer try block of `_try_llm_recommendation`
(lines 98-244): build the prompt, call the client, then run the inner
block; an `Except.error` models an exception reaching the outer except
branch of line 246. -/
def tryBody (env : Env) (ee sa : PyDict) (xe : Option PyDict) :
    Except PyErr (Option Recommendation) :=
  eBind (build_recommendation_prompt ee sa xe) fun pb =>
  eBind (env.clientResp (pb.1 ++ json_instructions)) fun content =>
  match innerParse env content pb.2.1 pb.2.2 with
  | .ok v => .ok v
  | .error _ => .ok none

/-- `_try_llm_recommendation` (lines 81-248): the outer catch-all except
branch returns `None` for any exception of the body. -/
def try_llm_recommendation (env : Env) (ee sa : PyDict) (xe : Option PyDict) :
    Option Recommendation :=
  match tryBody env ee sa xe with
  | .ok r => r
  | .error _ => none

/-- The `recommendation_data` dict of the failure branch of
`generate_recommendation` (lines 62-67). -/
def fallbackData (ee : PyDict) : PyDict :=
  [("patient_demographics", dgetD ee "demographics" (.dict [])),
   ("clinical_history", .str ""),
   ("chief_complaint", .str ""),
   ("extracted_vital_signs", .dict [])]

/-- The basic error recommendation of the failure branch of
`generate_recommendation` (lines 61-79): confidence is the external
calculator applied to the minimal data, halved. -/
def fallbackRecommendation (env : Env) (ee : PyDict) : Recommendation :=
  { transfer_request_id := "error"
    recommended_campus_id := .str "ERROR"
    confidence_score := .val (env.confCalc (fallbackData ee) / 2)
    reason := .str "Failed to generate a recommendation with the LLM"
    notes := ["LLM error - please check the logs and try again"]
    explainability_details := fallbackData ee }

/-- `generate_recommendation` (lines 31-79). The result carries, besides
the Recommendation, the values of the three argument dicts after the call:
every Python statement of the component that mutates a dict
(`standardized[...]`, `recommendation_json["score_utilization"]`, the
local explainability dict) is an explicit update of the corresponding
local in this embedding, and none of them targets the arguments, which is
what the returned triple records for the frame claim. -/
def generate_recommendation (env : Env) (ee sa : PyDict) (xe : Option PyDict) :
    Recommendation × PyDict × PyDict × Option PyDict :=
  match try_llm_recommendation env ee sa xe with
  | some r => (r, ee, sa, xe)
  | none => (fallbackRecommendation env ee, ee, sa, xe)

/-! Specification-side helpers used to state properties of
`_standardize_llm_response` over dict-valued responses, and the pure shape
against which the field-mapping loop is compared. -/

/-- The first truthy value of a dict among an ordered alias list: the
value the alias-priority rule of the claim about
`_standardize_llm_response` selects. -/
def firstTruthyVal (d : PyDict) : List String → Option PyVal
  | [] => none
  | a :: rest =>
      match dget d a with
      | some v => if truthy v then some v else firstTruthyVal d rest
      | none => firstTruthyVal d rest

/-- The standardized value of one field: the first truthy alias value,
falling back to the template default. -/
def stdFieldVal (d : PyDict) (aliases : List String) (dflt : PyVal) : PyVal :=
  (firstTruthyVal d aliases).getD dflt

/-- One step of the field-mapping loop, on a dict-valued response. -/
def stdApplyField (d : PyDict) (target : String) (aliases : List String)
    (std : PyDict) : PyDict :=
  match firstTruthyVal d aliases with
  | some v => dset std target v
  | none => std

/-- The copy-all-other-keys loop of lines 292-294 of
`_standardize_llm_response`. -/
def extrasFold (items : PyDict) (std : PyDict) : PyDict :=
  items.foldl (fun acc e => if dmem acc e.1 then acc else dset acc e.1 e.2) std

/-- The standardized dict after the field-mapping loop on a dict-valued
response: each of the four targets set to its alias-priority value over
the template. -/
def std1Of (rj : PyDict) : PyDict :=
  stdApplyField rj "care_level" careAliases
    (stdApplyField rj "confidence_score" confAliases
      (stdApplyField rj "reason" reasonAliases
        (stdApplyField rj "campus_id" campusAliases stdTemplate)))

/-! Concrete environments and responses used by the claim theorems: each
models one concrete behavior of the external collaborators (a failing
client, or a client returning a fixed response that `json.loads` parses to
a fixed value). -/

/-- A backend whose chat call always raises (for example a connection
error), with a calculator returning 80. -/
def envFailingClient : Env :=
  { jparse := fun _ => none
    strFloat := fun _ => none
    clientResp := fun _ => .error "APIConnectionError"
    confCalc := fun _ => 80 }

/-- A response carrying no confidence field at all. -/
def rjNoConfidence : PyVal :=
  .dict [("recommended_campus", .str "Campus A"), ("clinical_reasoning", .str "ok")]

/-- A response carrying an out-of-range confidence of 150. -/
def rjConfidence150 : PyVal :=
  .dict [("recommended_campus", .str "Campus A"), ("clinical_reasoning", .str "ok"),
         ("confidence_score", .num (.val 150))]

/-- A response whose reason value is the number 7, which the debug print
of `_standardize_llm_response` cannot slice. -/
def rjNumericReason : PyVal :=
  .dict [("recommended_campus", .str "Campus A"), ("clinical_reasoning", .num (.val 7))]

/-- A client returning the fixed content "x" which parses to
`rjNoConfidence`; calculator returns 80. -/
def envNoConfidence : Env :=
  { jparse := fun s => if s = "x" then some rjNoConfidence else none
    strFloat := fun _ => none
    clientResp := fun _ => .ok "x"
    confCalc := fun _ => 80 }

/-- A client returning the fixed content "y" which parses to
`rjConfidence150`. -/
def envConfidence150 : Env :=
  { jparse := fun s => if s = "y" then some rjConfidence150 else none
    strFloat := fun _ => none
    clientResp := fun _ => .ok "y"
    confCalc := fun _ => 80 }

/-- A client returning the fixed content "w" which parses to
`rjNumericReason`. -/
def envNumericReason : Env :=
  { jparse := fun s => if s = "w" then some rjNumericReason else none
    strFloat := fun _ => none
    clientResp := fun _ => .ok "w"
    confCalc := fun _ => 80 }

/-- A response whose confidence field is the string "nan" - standard JSON
that float() converts to the float nan. -/
def rjNanConfidence : PyVal :=
  .dict [("recommended_campus", .str "Campus A"), ("clinical_reasoning", .str "ok"),
         ("confidence_score", .str "nan")]

/-- A client returning the fixed content "n" which parses to
`rjNanConfidence`; float() maps "nan" to nan. -/
def envNanConfidence : Env :=
  { jparse := fun s => if s = "n" then some rjNanConfidence else none
    strFloat := fun s => if s = "nan" then some .nan else none
    clientResp := fun _ => .ok "n"
    confCalc := fun _ => 80 }

/-- A response whose confidence field is the string "inf". -/
def rjInfConfidence : PyVal :=
  .dict [("recommended_campus", .str "Campus A"), ("clinical_reasoning", .str "ok"),
         ("confidence_score", .str "inf")]

/-- A client returning the fixed content "i" which parses to
`rjInfConfidence`; float() maps "inf" to inf. -/
def envInfConfidence : Env :=
  { jparse := fun s => if s = "i" then some rjInfConfidence else none
    strFloat := fun s => if s = "inf" then some .inf else none
    clientResp := fun _ => .ok "i"
    confCalc := fun _ => 80 }

/-- A response recommending campus A at the general-floor care level. -/
def rjGeneralFloor : PyVal :=
  .dict [("recommended_campus", .str "Campus A"),
         ("care_level", .str "general_floor"),
         ("clinical_reasoning", .str "uses pews score")]

/-- A specialty assessment whose scoring subsystem results indicate the
picu care level (a PEWS total of 8). -/
def saPicuScores : PyDict :=
  [("scoring_results", .dict
    [("scores", .dict [("pews", .dict
        [("total_score", .num (.val 8)),
         ("interpretation", .str "critical - picu recommended")])]),
     ("recommended_care_levels", .dict [("pews", .str "picu")])])]

/-- A client returning the fixed content "z" which parses to
`rjGeneralFloor`. -/
def envGeneralFloor : Env :=
  { jparse := fun s => if s = "z" then some rjGeneralFloor else none
    strFloat := fun _ => none
    clientResp := fun _ => .ok "z"
    confCalc := fun _ => 80 }

/-- A response naming a far campus and scoring a closer backup campus
higher on location, under the `campus_scores` key of the instructed
format. -/
def rjCampusScores : PyVal :=
  .dict [("recommended_campus", .str "Far Campus"),
         ("clinical_reasoning", .str "ok"),
         ("campus_scores", .dict
           [("primary", .dict [("location", .num (.val 2)), ("specific_resources", .num (.val 5))]),
            ("backup", .dict [("location", .num (.val 5)), ("specific_resources", .num (.val 3))])])]

/-- A client returning the fixed content "v" which parses to
`rjCampusScores`. -/
def envCampusScores : Env :=
  { jparse := fun s => if s = "v" then some rjCampusScores else none
    strFloat := fun _ => none
    clientResp := fun _ => .ok "v"
    confCalc := fun _ => 80 }

/-- A well-formed response with one extra key. -/
def rjPlain : PyVal :=
  .dict [("recommended_campus", .str "Campus A"),
         ("clinical_reasoning", .str "ok"),
         ("urgency", .str "high")]

/-- A client returning the fixed content "u" which parses to `rjPlain`. -/
def envPlain : Env :=
  { jparse := fun s => if s = "u" then some rjPlain else none
    strFloat := fun _ => none
    clientResp := fun _ => .ok "u"
    confCalc := fun _ => 80 }

/-- A raw response that is itself a valid JSON string literal and that
also contains a fenced json block whose body parses to the number 1. -/
def fencedStringContent : String := "\"see ```json 1 ``` end\""

/-- A `json.loads` behavior consistent with `fencedStringContent`: the
full content parses to the string it quotes, the fenced body "1" parses
to the number 1, and nothing else parses. -/
def jparseFencedString : String → Option PyVal := fun s =>
  if s = "\"see ```json 1 ``` end\"" then some (.str "see ```json 1 ``` end")
  else if s = "1" then some (.num (.val 1))
  else none

/-- The environment of the parse-recovery counterexample. -/
def envFencedString : Env :=
  { jparse := jparseFencedString
    strFloat := fun _ => none
    clientResp := fun _ => .ok fencedStringContent
    confCalc := fun _ => 80 }

/-- A `json.loads` behavior that parses the content consisting of one
empty object and nothing else. -/
def envEmptyObject : Env :=
  { jparse := fun s => if s = "\x7b\x7d" then some (.dict []) else none
    strFloat := fun _ => none
    clientResp := fun _ => .ok "\x7b\x7d"
    confCalc := fun _ => 80 }

/-- A response dict used to witness the standardization shape. -/
def rjWitness : PyDict :=
  [("recommended_campus", .str "Campus B"), ("notes", .str "hello")]

/-! Lemmas about the dict operations. -/

theorem dget_dset_self (d : PyDict) (k : String) (v : PyVal) :
    dget (dset d k v) k = some v := by
  induction d with
  | nil => simp [dget, dset]
  | cons e es ih =>
      by_cases h : e.1 = k
      · simp [dset, h, dget]
      · simp [dset, h, dget, ih]

theorem dget_dset_ne (d : PyDict) (k k' : String) (v : PyVal) (h : k' ≠ k) :
    dget (dset d k v) k' = dget d k' := by
  induction d with
  | nil => simp [dget, dset, show ¬(k = k') from fun hh => h hh.symm]
  | cons e es ih =>
      obtain ⟨ek, ev⟩ := e
      by_cases he : ek = k
      · subst he
        simp [dset, dget, show ¬(ek = k') from fun hh => h hh.symm]
      · simp [dset, he, dget, ih]

theorem dmem_dset (d : PyDict) (k k' : String) (v : PyVal) :
    dmem (dset d k v) k' = (k' = k || dmem d k') := by
  by_cases h : k' = k
  · simp [dmem, h, dget_dset_self]
  · simp [dmem, h, dget_dset_ne d k k' v h]

/-- C1: when the text-generation call fails permanently,
`generate_recommendation` does not fall back to a rule-only ranked
recommendation with a "generated without narrative reasoning" flag: it
returns an error placeholder recommendation with campus id "ERROR", the
constant note "LLM error - please check the logs and try again" (which
carries no narrative-reasoning flag), and the external calculator output
halved as its confidence. -/
theorem C1_total_llm_failure_returns_error_placeholder :
    (generate_recommendation envFailingClient [] [] none).1.recommended_campus_id
        = PyVal.str "ERROR" ∧
    (generate_recommendation envFailingClient [] [] none).1.notes
        = ["LLM error - please check the logs and try again"] ∧
    ((generate_recommendation envFailingClient [] [] none).1.notes.all
        fun n => !(strContains n "generated without narrative reasoning")) = true ∧
    (generate_recommendation envFailingClient [] [] none).1.confidence_score
        = .val (envFailingClient.confCalc (fallbackData []) / 2) ∧
    (generate_recommendation envFailingClient [] [] none).1.confidence_score
        = PyFloat.val 40 := by
  refine ⟨rfl, rfl, by decide, rfl, ?_⟩
  rw [show (generate_recommendation envFailingClient [] [] none).1.confidence_score
      = .val (envFailingClient.confCalc (fallbackData []) / 2) from rfl]
  norm_num [envFailingClient]

/-- C2: the confidence score of a produced Recommendation is not always
derived from input completeness: a response with no confidence field
yields the hardcoded template default 50, an out-of-range confidence
yields the hardcoded default 70, a response whose processing raises
yields the hardcoded error constant 10, and total LLM failure yields the
calculator output halved by the error-path heuristic. -/
theorem C2_confidence_uses_hardcoded_constants :
    (generate_recommendation envNoConfidence [] [] none).1.confidence_score
        = PyFloat.val 50 ∧
    (generate_recommendation envConfidence150 [] [] none).1.confidence_score
        = PyFloat.val 70 ∧
    (generate_recommendation envNumericReason [] [] none).1.confidence_score
        = PyFloat.val 10 ∧
    (generate_recommendation envFailingClient [] [] none).1.confidence_score
        = .val (envFailingClient.confCalc (fallbackData []) / 2) :=
  ⟨by decide, by decide, by decide, rfl⟩

/-- C3 counterexample: on a raw response that is itself a valid JSON
string literal containing a fenced json block, the direct parse (strategy
1) succeeds with the string value, but the parse recovery does not stop
there: the debug print of the parsed keys raises on the truthy non-dict
value, the manual branch re-handles the response, and the final result is
the number parsed from the fenced block (strategy 2), not the value of
the earlier successful strategy. -/
theorem C3_parse_recovery_counterexample :
    parse_recovery envFencedString fencedStringContent
        = some (PyVal.num (PyFloat.val 1)) ∧
    robust_json_parse envFencedString fencedStringContent
        = some (PyVal.str "see ```json 1 ``` end") :=
  ⟨rfl, rfl⟩

/-- C4: the care level of the produced Recommendation is the level
suggested in the LLM response, not a score-derived level: with scoring
results recommending picu, a response saying general_floor produces notes
whose care-level line reads "General Floor" and mentions PICU nowhere. -/
theorem C4_care_level_comes_from_llm_response :
    (generate_recommendation envGeneralFloor [] saPicuScores none).1.notes.head?
        = some "Care Level: General Floor" ∧
    ((generate_recommendation envGeneralFloor [] saPicuScores none).1.notes.all
        fun n => !(strContains n "PICU")) = true ∧
    pyGet (dgetD saPicuScores "scoring_results" PyVal.none)
        "recommended_care_levels" (.dict [])
        = .ok (.dict [("pews", .str "picu")]) :=
  ⟨by decide, by decide, rfl⟩

/-- C5: even when the response carries `campus_scores` with a closer
bypassed campus, the explainability payload of the produced
Recommendation contains no proximity-analysis fields at all: the source
computes constant values (False, "", "") into a local dict and then
discards that dict, so no bypass reason is ever recorded. -/
theorem C5_proximity_analysis_absent_from_payload :
    dmem (generate_recommendation envCampusScores [] [] none).1.explainability_details
        "proximity_analysis" = false ∧
    dmem (generate_recommendation envCampusScores [] [] none).1.explainability_details
        "closer_options_bypassed" = false ∧
    dmem (generate_recommendation envCampusScores [] [] none).1.explainability_details
        "closer_campus" = false ∧
    dmem (generate_recommendation envCampusScores [] [] none).1.explainability_details
        "bypass_reason" = false ∧
    pyContainsKey rjCampusScores "campus_scores" = .ok true :=
  ⟨by decide, by decide, by decide, by decide, rfl⟩

/-- C6: the explainability payload attached to a produced Recommendation
is exactly the standardized LLM response (template fields, the original
response, and the extra response keys); it references none of the
upstream artifacts (facts used, specialties considered, exclusions
applied, scores consulted, travel or bed facts), and the nested
explainability fields built at lines 388-428 (urgency, key factors,
proximity analysis) are missing keys, not explicit null values. -/
theorem C6_payload_lacks_upstream_artifacts :
    (generate_recommendation envPlain [] [] none).1.explainability_details
        = [("campus_id", .str "Campus A"),
           ("reason", .str "ok"),
           ("confidence_score", .num (.val 50)),
           ("care_level", .str "unknown"),
           ("notes", .list []),
           ("original_response", rjPlain),
           ("recommended_campus", .str "Campus A"),
           ("clinical_reasoning", .str "ok"),
           ("urgency", .str "high")] ∧
    dmem (generate_recommendation envPlain [] [] none).1.explainability_details
        "proximity_analysis" = false ∧
    dmem (generate_recommendation envPlain [] [] none).1.explainability_details
        "key_factors_for_recommendation" = false ∧
    dmem (generate_recommendation envPlain [] [] none).1.explainability_details
        "facts_used" = false ∧
    dmem (generate_recommendation envPlain [] [] none).1.explainability_details
        "specialties_considered" = false ∧
    dmem (generate_recommendation envPlain [] [] none).1.explainability_details
        "exclusions_applied" = false :=
  ⟨rfl, by decide, by decide, by decide, by decide, by decide⟩

/-- C10 counterexample: `_standardize_llm_response` does not return a
dictionary for every input dictionary: on the input whose reason value is
the number 7, the debug print at line 298 slices the chosen reason value
and raises TypeError instead of returning. -/
theorem C10_standardize_counterexample :
    standardize_llm_response (.dict [("reason", PyVal.num (PyFloat.val 7))])
        = Except.error "TypeError: unsupported slice on reason" :=
  rfl

/-- C8: `generate_recommendation` never mutates its inputs: the values of
the three argument dicts after the call (threaded through the embedding,
in which every dict mutation of the source is an explicit update) equal
the values passed in, on every execution path and for every behavior of
the external collaborators. -/
theorem C8_inputs_never_mutated (env : Env) (ee sa : PyDict) (xe : Option PyDict) :
    (generate_recommendation env ee sa xe).2 = (ee, sa, xe) := by
  unfold generate_recommendation
  cases try_llm_recommendation env ee sa xe <;> rfl

/-- C9: `generate_recommendation` is total over backend behavior: for
every environment (hence every client behavior, every parser behavior)
and every input, it returns a Recommendation together with the unchanged
inputs, and whenever the body of `_try_llm_recommendation` raises
internally (an `Except.error` of `tryBody`), `_try_llm_recommendation`
returns `None` rather than propagating. The external confidence
calculator returning normally is built into `Env`, whose `confCalc` field
is a total function. -/
theorem C9_total_over_backend_behavior (env : Env) (ee sa : PyDict)
    (xe : Option PyDict) :
    (∃ rec, generate_recommendation env ee sa xe = (rec, ee, sa, xe)) ∧
    ∀ e, tryBody env ee sa xe = Except.error e →
      try_llm_recommendation env ee sa xe = none := by
  constructor
  · cases h : try_llm_recommendation env ee sa xe with
    | some r => exact ⟨r, by simp [generate_recommendation, h]⟩
    | none =>
        exact ⟨fallbackRecommendation env ee, by simp [generate_recommendation, h]⟩
  · intro e h
    simp [try_llm_recommendation, h]

/-- Witness for C9 at a concrete failing backend. -/
theorem C9_total_over_backend_behavior_witness :
    (∃ rec, generate_recommendation envFailingClient [] [] none
        = (rec, [], [], none)) ∧
    ∀ e, tryBody envFailingClient [] [] none = Except.error e →
      try_llm_recommendation envFailingClient [] [] none = none :=
  C9_total_over_backend_behavior envFailingClient [] [] none

/-- The confidence validation keeps every value inside the closed
interval from 0 to 100 with one exception: nan, on which both comparisons
are false, passes through unreplaced. -/
theorem clampConf_range (x : PyFloat) :
    clampConf x = .nan ∨ ∃ q, clampConf x = .val q ∧ 0 ≤ q ∧ q ≤ 100 := by
  cases x with
  | nan => exact Or.inl rfl
  | inf => exact Or.inr ⟨70, rfl, by norm_num, by norm_num⟩
  | ninf => exact Or.inr ⟨70, rfl, by norm_num, by norm_num⟩
  | val q =>
      refine Or.inr ?_
      by_cases h1 : q < 0
      · exact ⟨70, by simp [clampConf, PyFloat.blt, h1], by norm_num, by norm_num⟩
      · by_cases h2 : 100 < q
        · exact ⟨70, by simp [clampConf, PyFloat.blt, h1, h2], by norm_num, by norm_num⟩
        · exact ⟨q, by simp [clampConf, PyFloat.blt, h1, h2], by linarith, by linarith⟩

/-- Sequencing ends in success only when the first step succeeds and the
continuation succeeds on its result. -/
theorem eBind_ok {α β : Type} {x : Except PyErr α} {f : α → Except PyErr β}
    {r : β} (h : eBind x f = .ok r) : ∃ a, x = .ok a ∧ f a = .ok r := by
  cases x with
  | error e => simp [eBind] at h
  | ok a => exact ⟨a, rfl, h⟩

/-- A successful `convertBody` result carries a clamped confidence. -/
theorem convertBody_ok_conf (env : Env) (rj : PyVal) (r : Recommendation)
    (h : convertBody env rj = .ok r) :
    ∃ c0, r.confidence_score = clampConf c0 := by
  unfold convertBody at h
  obtain ⟨std, hstd, h⟩ := eBind_ok h
  obtain ⟨bconf, hb, h⟩ := eBind_ok h
  obtain ⟨c0, hc0, h⟩ := eBind_ok h
  obtain ⟨d1, hd1, h⟩ := eBind_ok h
  obtain ⟨d2, hd2, h⟩ := eBind_ok h
  obtain ⟨d3, hd3, h⟩ := eBind_ok h
  obtain ⟨d4, hd4, h⟩ := eBind_ok h
  obtain ⟨cl, hcl, h⟩ := eBind_ok h
  obtain ⟨ed, hed, h⟩ := eBind_ok h
  split at h
  · exact ⟨c0, by rw [← Except.ok.inj h]; rfl⟩
  · simp at h

/-- Every recommendation produced by `_convert_to_recommendation` has a
confidence that is either nan (escaped through the range validation) or
in the closed interval from 0 to 100. -/
theorem convert_conf_nan_or_range (env : Env) (rj : PyVal) :
    (convert_to_recommendation env rj).confidence_score = .nan ∨
      ∃ q, (convert_to_recommendation env rj).confidence_score = .val q ∧
        0 ≤ q ∧ q ≤ 100 := by
  unfold convert_to_recommendation
  cases h : convertBody env rj with
  | ok r =>
      obtain ⟨c0, hc⟩ := convertBody_ok_conf env rj r h
      rw [hc]
      exact clampConf_range c0
  | error e => exact Or.inr ⟨10, rfl, by norm_num, by norm_num⟩

/-- A `Some` result of the inner block of `_try_llm_recommendation` is
always an output of `_convert_to_recommendation`. -/
theorem innerParse_ok_some (env : Env) (content : String) (hs : Bool)
    (sc : Nat) (r : Recommendation)
    (h : innerParse env content hs sc = .ok (some r)) :
    ∃ rj, r = convert_to_recommendation env rj := by
  unfold innerParse at h
  split at h
  · simp at h
  · obtain ⟨rj2, hscan, h⟩ := eBind_ok h
    injection h with h2
    injection h2 with h3
    exact ⟨rj2, h3.symm⟩

/-- A `Some` result of `_try_llm_recommendation` is always an output of
`_convert_to_recommendation`. -/
theorem try_llm_some (env : Env) (ee sa : PyDict) (xe : Option PyDict)
    (r : Recommendation) (h : try_llm_recommendation env ee sa xe = some r) :
    ∃ rj, r = convert_to_recommendation env rj := by
  unfold try_llm_recommendation at h
  split at h
  · next v hv =>
      subst h
      unfold tryBody at hv
      obtain ⟨pb, hpb, hv⟩ := eBind_ok hv
      obtain ⟨content, hcontent, hv⟩ := eBind_ok hv
      split at hv
      · next v' hinner =>
          injection hv with hv2
          subst hv2
          exact innerParse_ok_some _ _ _ _ _ hinner
      · injection hv with hv2
        exact Option.noConfusion hv2
  · simp at h

/-- Every confidence returned by `generate_recommendation` is either nan
or in the closed interval from 0 to 100, for every backend behavior,
under the hypothesis that the external calculator returns values in that
interval: nan is the one escape from the range invariant. -/
theorem generate_confidence_nan_or_range (env : Env) (ee sa : PyDict)
    (xe : Option PyDict)
    (hcal : ∀ d, 0 ≤ env.confCalc d ∧ env.confCalc d ≤ 100) :
    (generate_recommendation env ee sa xe).1.confidence_score = .nan ∨
      ∃ q, (generate_recommendation env ee sa xe).1.confidence_score = .val q ∧
        0 ≤ q ∧ q ≤ 100 := by
  unfold generate_recommendation
  cases h : try_llm_recommendation env ee sa xe with
  | some r =>
      obtain ⟨rj, hr⟩ := try_llm_some env ee sa xe r h
      simpa [hr] using convert_conf_nan_or_range env rj
  | none =>
      obtain ⟨h0, h1⟩ := hcal (fallbackData ee)
      exact Or.inr ⟨env.confCalc (fallbackData ee) / 2, rfl, by linarith, by linarith⟩

/-- C7: the code does not keep every confidence inside the closed
interval from 0 to 100. A standard-JSON response whose confidence field
is the string "nan" converts through float() to nan, and the range
validation of lines 334-338 passes nan through because both of its
comparisons are false on nan, so the produced Recommendation carries a
nan confidence, which is not in the interval - contradicting the range
check's own stated purpose and the 0-100 contract of the spec. An
infinite confidence, by contrast, fails the upper comparison and is
reset to the default 70: nan is the one escape
(`generate_confidence_nan_or_range`). -/
theorem C7_nan_confidence_escapes_range_check :
    (generate_recommendation envNanConfidence [] [] none).1.confidence_score
        = PyFloat.nan ∧
    pyFloatInRange
        (generate_recommendation envNanConfidence [] [] none).1.confidence_score
        = false ∧
    (generate_recommendation envInfConfidence [] [] none).1.confidence_score
        = PyFloat.val 70 :=
  ⟨by decide, by decide, by decide⟩

/-- A value that is falsy or a dict survives the keys debug print. -/
theorem keysCallOk_of (v : PyVal) (h : truthy v = false ∨ v.isDict = true) :
    keysCallOk v = true := by
  unfold keysCallOk
  rcases h with h | h <;> simp [h]

/-- C3 (amended): the parse recovery equals the ordered three-strategy
first-success composition (direct parse, then fenced code block, then
outermost bracket pair) on every response, provided that a successful
direct parse of the full response and a successful parse of the
bracket-scan substring yield only falsy or object (dict) values; on a
truthy non-object value the debug print of the parsed keys raises and
the manual branch re-handles the response, which is the counterexample
to the unconditional claim. -/
theorem C3_parse_recovery_three_tier (env : Env) (content : String)
    (h1 : ∀ v, env.jparse content = some v →
        truthy v = false ∨ v.isDict = true)
    (h3 : ∀ sub v, braceExtract content = some sub →
        env.jparse sub = some v → truthy v = false ∨ v.isDict = true) :
    parse_recovery env content = robust_json_parse env content := by
  unfold parse_recovery
  cases hr : robust_json_parse env content with
  | none =>
      unfold robust_json_parse at hr
      unfold manualExtract
      cases h1c : env.jparse content with
      | some v => simp [h1c] at hr
      | none =>
          simp only [h1c] at hr
          by_cases hf : fencedPresent content
          · simp only [hf, if_true] at hr
            cases h2c : env.jparse (extractFenced content) with
            | some v => simp [h2c] at hr
            | none => simp [hf, h2c, h1c]
          · simp [hf, h1c]
  | some v =>
      have hko : keysCallOk v = true ∨ manualExtract env content = some v := by
        unfold robust_json_parse at hr
        cases h1c : env.jparse content with
        | some v1 =>
            rw [h1c] at hr
            cases hr
            exact Or.inl (keysCallOk_of v (h1 v h1c))
        | none =>
            rw [h1c] at hr
            by_cases hf : fencedPresent content
            · rw [if_pos hf] at hr
              cases h2c : env.jparse (extractFenced content) with
              | some v2 =>
                  rw [h2c] at hr
                  cases hr
                  refine Or.inr ?_
                  unfold manualExtract
                  rw [if_pos hf, h2c]
              | none =>
                  rw [h2c] at hr
                  cases hb : braceExtract content with
                  | some sub =>
                      rw [hb] at hr
                      exact Or.inl (keysCallOk_of v (h3 sub v hb hr))
                  | none => rw [hb] at hr; cases hr
            · rw [if_neg hf] at hr
              cases hb : braceExtract content with
              | some sub =>
                  rw [hb] at hr
                  exact Or.inl (keysCallOk_of v (h3 sub v hb hr))
              | none => rw [hb] at hr; cases hr
      rcases hko with hko | hko
      · simp [hko]
      · by_cases hk : keysCallOk v
        · simp [hk]
        · simp [hk, hko]

/-- Witness for C3 (amended) at a backend parsing one empty object. -/
theorem C3_parse_recovery_three_tier_witness :
    parse_recovery envEmptyObject "\x7b\x7d"
        = robust_json_parse envEmptyObject "\x7b\x7d" :=
  C3_parse_recovery_three_tier envEmptyObject "\x7b\x7d"
    (by
      intro v hv
      rw [show envEmptyObject.jparse "\x7b\x7d" = some (PyVal.dict []) from rfl] at hv
      cases hv
      exact Or.inr rfl)
    (by
      intro sub v hb hv
      rw [show braceExtract "\x7b\x7d" = some "\x7b\x7d" from rfl] at hb
      cases hb
      rw [show envEmptyObject.jparse "\x7b\x7d" = some (PyVal.dict []) from rfl] at hv
      cases hv
      exact Or.inr rfl)

/-- On a dict-valued response, the field-mapping inner loop returns the
first truthy alias value. -/
theorem firstTruthy_dict (d : PyDict) : ∀ as : List String,
    firstTruthy (.dict d) as = .ok (firstTruthyVal d as) := by
  intro as
  induction as with
  | nil => rfl
  | cons a rest ih =>
      unfold firstTruthy firstTruthyVal
      cases hv : dget d a with
      | none => simp [pyContainsKey, dmem, hv, ih]
      | some v =>
          by_cases ht : truthy v
          · simp [pyContainsKey, dmem, hv, pyIndex, ht]
          · simp [pyContainsKey, dmem, hv, pyIndex, ht, ih]

/-- On a dict-valued response, the field-mapping loop produces exactly
the four alias-priority updates over the template. -/
theorem applyMappings_dict (rj : PyDict) :
    applyMappings (.dict rj) = .ok (std1Of rj) := by
  unfold applyMappings fieldMappings std1Of
  cases hc : firstTruthyVal rj campusAliases <;>
    cases hrn : firstTruthyVal rj reasonAliases <;>
      cases hcf : firstTruthyVal rj confAliases <;>
        cases hcl : firstTruthyVal rj careAliases <;>
          simp [applyMappingsAux, firstTruthy_dict, hc, hrn, hcf, hcl, stdApplyField]

theorem dget_stdApplyField_self (rj : PyDict) (tgt : String)
    (al : List String) (std : PyDict) (dflt : PyVal)
    (h : dget std tgt = some dflt) :
    dget (stdApplyField rj tgt al std) tgt
        = some (stdFieldVal rj al dflt) := by
  unfold stdApplyField stdFieldVal
  cases firstTruthyVal rj al <;> simp [dget_dset_self, h]

theorem dget_stdApplyField_ne (rj : PyDict) (tgt : String)
    (al : List String) (std : PyDict) (k : String) (h : k ≠ tgt) :
    dget (stdApplyField rj tgt al std) k = dget std k := by
  unfold stdApplyField
  cases firstTruthyVal rj al <;> simp [dget_dset_ne _ _ _ _ h]

theorem dget_std1Of_campus (rj : PyDict) :
    dget (std1Of rj) "campus_id"
        = some (stdFieldVal rj campusAliases (.str "UNKNOWN")) := by
  unfold std1Of
  rw [dget_stdApplyField_ne _ _ _ _ _ (by decide),
      dget_stdApplyField_ne _ _ _ _ _ (by decide),
      dget_stdApplyField_ne _ _ _ _ _ (by decide)]
  exact dget_stdApplyField_self _ _ _ _ _ rfl

theorem dget_std1Of_reason (rj : PyDict) :
    dget (std1Of rj) "reason"
        = some (stdFieldVal rj reasonAliases (.str "No reason provided")) := by
  unfold std1Of
  rw [dget_stdApplyField_ne _ _ _ _ _ (by decide),
      dget_stdApplyField_ne _ _ _ _ _ (by decide)]
  refine (dget_stdApplyField_self _ _ _ _ _ ?_)
  rw [dget_stdApplyField_ne _ _ _ _ _ (by decide)]
  rfl

theorem dget_std1Of_conf (rj : PyDict) :
    dget (std1Of rj) "confidence_score"
        = some (stdFieldVal rj confAliases (.num (.val 50))) := by
  unfold std1Of
  rw [dget_stdApplyField_ne _ _ _ _ _ (by decide)]
  refine (dget_stdApplyField_self _ _ _ _ _ ?_)
  rw [dget_stdApplyField_ne _ _ _ _ _ (by decide),
      dget_stdApplyField_ne _ _ _ _ _ (by decide)]
  rfl

theorem dget_std1Of_care (rj : PyDict) :
    dget (std1Of rj) "care_level"
        = some (stdFieldVal rj careAliases (.str "unknown")) := by
  unfold std1Of
  refine (dget_stdApplyField_self _ _ _ _ _ ?_)
  rw [dget_stdApplyField_ne _ _ _ _ _ (by decide),
      dget_stdApplyField_ne _ _ _ _ _ (by decide),
      dget_stdApplyField_ne _ _ _ _ _ (by decide)]
  rfl

theorem dget_std1Of_notes (rj : PyDict) :
    dget (std1Of rj) "notes" = some (.list []) := by
  unfold std1Of
  rw [dget_stdApplyField_ne _ _ _ _ _ (by decide),
      dget_stdApplyField_ne _ _ _ _ _ (by decide),
      dget_stdApplyField_ne _ _ _ _ _ (by decide),
      dget_stdApplyField_ne _ _ _ _ _ (by decide)]
  rfl

/-- The extras loop never changes the value of a key already present. -/
theorem dget_extrasFold (items : PyDict) : ∀ (std : PyDict) (k : String),
    dmem std k = true → dget (extrasFold items std) k = dget std k := by
  induction items with
  | nil => intro std k _; rfl
  | cons e es ih =>
      intro std k h
      unfold extrasFold
      rw [List.foldl_cons]
      by_cases hd : dmem std e.1
      · simpa [hd] using ih std k h
      · have hk : k ≠ e.1 := by
          intro hkk
          rw [hkk] at h
          exact absurd h (by simp [hd])
        have h2 : dmem (dset std e.1 e.2) k = true := by
          rw [dmem_dset]
          simp [h]
        simpa [hd, dget_dset_ne _ _ _ _ hk] using ih (dset std e.1 e.2) k h2

/-- A key present before the extras loop is present after it. -/
theorem dmem_extrasFold_mono (items : PyDict) (std : PyDict) (k : String)
    (h : dmem std k = true) : dmem (extrasFold items std) k = true := by
  rw [dmem, dget_extrasFold items std k h]
  exact h

/-- Every key of the iterated dict is present after the extras loop. -/
theorem dmem_extrasFold_of_mem (items : PyDict) : ∀ (std : PyDict) (k : String),
    dmem items k = true → dmem (extrasFold items std) k = true := by
  induction items with
  | nil => intro std k h; exact absurd h (by simp [dmem, dget])
  | cons e es ih =>
      intro std k h
      unfold extrasFold
      rw [List.foldl_cons]
      by_cases hk : e.1 = k
      · subst hk
        by_cases hd : dmem std e.1
        · simpa [hd] using dmem_extrasFold_mono es std e.1 hd
        · have h2 : dmem (dset std e.1 e.2) e.1 = true := by
            rw [dmem_dset]; simp
          simpa [hd] using dmem_extrasFold_mono es (dset std e.1 e.2) e.1 h2
      · have h' : dmem es k = true := by
          unfold dmem at h ⊢
          rw [show dget (e :: es) k = dget es k from by
            rw [show dget (e :: es) k
                = if e.1 = k then some e.2 else dget es k from rfl, if_neg hk]] at h
          exact h
        by_cases hd : dmem std e.1
        · simpa [hd] using ih std k h'
        · simpa [hd] using ih (dset std e.1 e.2) k h'

/-- C10 (amended): for every input dictionary whose alias-priority reason
value is sliceable (a str or a list, so the debug print of line 298 does
not raise; the counterexample shows it raising on a numeric reason),
`_standardize_llm_response` returns a dict that contains the five
standardized keys, stores the input under original_response, contains
every key of the input, and holds for each standardized field the first
truthy alias value in the fixed order, falling back to the template
default. -/
theorem C10_standardize_shape (rj : PyDict)
    (_hnd : (rj.map Prod.fst).Nodup)
    (hs : sliceOk (stdFieldVal rj reasonAliases (.str "No reason provided")) = true) :
    ∃ out, standardize_llm_response (.dict rj) = .ok out ∧
      dmem out "campus_id" = true ∧
      dmem out "reason" = true ∧
      dmem out "confidence_score" = true ∧
      dmem out "care_level" = true ∧
      dmem out "notes" = true ∧
      dget out "original_response" = some (.dict rj) ∧
      (∀ k, dmem rj k = true → dmem out k = true) ∧
      dget out "campus_id" = some (stdFieldVal rj campusAliases (.str "UNKNOWN")) ∧
      dget out "reason" = some (stdFieldVal rj reasonAliases (.str "No reason provided")) ∧
      dget out "confidence_score" = some (stdFieldVal rj confAliases (.num (.val 50))) ∧
      dget out "care_level" = some (stdFieldVal rj careAliases (.str "unknown")) := by
  have hne : ∀ k, k ≠ "original_response" →
      dget (dset (std1Of rj) "original_response" (.dict rj)) k
        = dget (std1Of rj) k := by
    intro k hk
    exact dget_dset_ne _ _ _ _ hk
  have hmem2 : ∀ k v, dget (std1Of rj) k = some v → k ≠ "original_response" →
      dmem (dset (std1Of rj) "original_response" (.dict rj)) k = true := by
    intro k v hv hk
    rw [dmem, hne k hk, hv]
    rfl
  set std2 := dset (std1Of rj) "original_response" (.dict rj) with hstd2
  set out := extrasFold rj std2 with hout
  have hcampus : dget out "campus_id"
      = some (stdFieldVal rj campusAliases (.str "UNKNOWN")) := by
    rw [hout, dget_extrasFold rj std2 _
        (hmem2 _ _ (dget_std1Of_campus rj) (by decide)),
      hstd2, hne _ (by decide), dget_std1Of_campus]
  have hreason : dget out "reason"
      = some (stdFieldVal rj reasonAliases (.str "No reason provided")) := by
    rw [hout, dget_extrasFold rj std2 _
        (hmem2 _ _ (dget_std1Of_reason rj) (by decide)),
      hstd2, hne _ (by decide), dget_std1Of_reason]
  have hconf : dget out "confidence_score"
      = some (stdFieldVal rj confAliases (.num (.val 50))) := by
    rw [hout, dget_extrasFold rj std2 _
        (hmem2 _ _ (dget_std1Of_conf rj) (by decide)),
      hstd2, hne _ (by decide), dget_std1Of_conf]
  have hcare : dget out "care_level"
      = some (stdFieldVal rj careAliases (.str "unknown")) := by
    rw [hout, dget_extrasFold rj std2 _
        (hmem2 _ _ (dget_std1Of_care rj) (by decide)),
      hstd2, hne _ (by decide), dget_std1Of_care]
  have hnotes : dget out "notes" = some (.list []) := by
    rw [hout, dget_extrasFold rj std2 _
        (hmem2 _ _ (dget_std1Of_notes rj) (by decide)),
      hstd2, hne _ (by decide), dget_std1Of_notes]
  have horig : dget out "original_response" = some (.dict rj) := by
    have hm : dmem std2 "original_response" = true := by
      rw [hstd2, dmem, dget_dset_self]
      rfl
    rw [hout, dget_extrasFold rj std2 _ hm, hstd2, dget_dset_self]
  have hrun : standardize_llm_response (.dict rj) = .ok out := by
    unfold standardize_llm_response
    rw [applyMappings_dict]
    show (if sliceOk (dgetD (extrasFold rj std2) "reason" PyVal.none)
        then Except.ok (extrasFold rj std2)
        else Except.error "TypeError: unsupported slice on reason") = .ok out
    rw [← hout]
    have : dgetD out "reason" PyVal.none
        = stdFieldVal rj reasonAliases (.str "No reason provided") := by
      rw [dgetD, hreason]
      rfl
    rw [this, hs]
    simp
  refine ⟨out, hrun, ?_, ?_, ?_, ?_, ?_, horig, ?_, hcampus, hreason, hconf, hcare⟩
  · rw [dmem, hcampus]; rfl
  · rw [dmem, hreason]; rfl
  · rw [dmem, hconf]; rfl
  · rw [dmem, hcare]; rfl
  · rw [dmem, hnotes]; rfl
  · intro k hk
    rw [hout]
    exact dmem_extrasFold_of_mem rj std2 k hk

/-- Witness for C10 (amended) at a concrete response dict. -/
theorem C10_standardize_shape_witness :
    ∃ out, standardize_llm_response (.dict rjWitness) = .ok out ∧
      dmem out "campus_id" = true ∧
      dmem out "reason" = true ∧
      dmem out "confidence_score" = true ∧
      dmem out "care_level" = true ∧
      dmem out "notes" = true ∧
      dget out "original_response" = some (.dict rjWitness) ∧
      (∀ k, dmem rjWitness k = true → dmem out k = true) ∧
      dget out "campus_id" = some (stdFieldVal rjWitness campusAliases (.str "UNKNOWN")) ∧
      dget out "reason" = some (stdFieldVal rjWitness reasonAliases (.str "No reason provided")) ∧
      dget out "confidence_score" = some (stdFieldVal rjWitness confAliases (.num (.val 50))) ∧
      dget out "care_level" = some (stdFieldVal rjWitness careAliases (.str "unknown")) :=
  C10_standardize_shape rjWitness (by decide) (by decide)

end TC
